import Mathlib

/-!
# Verification of the dynamic-form client (`src/App.tsx`)

A shallow embedding of the schema-driven form logic of `App.tsx`:
the per-section field validator (`validateSection`), the value-store
mutation (`handleInputChange`), the navigation transitions
(`goToNextSection` / `goToPrevSection`), the checkbox toggle handler,
and the registration flow (`registerUser`).

Conventions of the embedding:
* JavaScript values stored in `formValues` are either strings or arrays
  of strings in this program; an absent key reads as `undefined`.
  We model a read as `Option FieldValue` (`none` = `undefined`).
* JavaScript truthiness on such a read: `undefined` and `""` are falsy,
  every other string and every array (including `[]`) is truthy.
* The `Record<string, ...>` objects `formValues` and `formErrors` are
  modelled extensionally as functions `String → Option _`; nothing in
  the program depends on key insertion order.
* JS `string.length` counts UTF-16 units and Lean `String.length`
  counts characters; they agree on all inputs considered here.
-/

namespace DynForm

/-- A stored field value: a string (text-like inputs, dropdown, radio,
date) or a list of strings (checkbox groups). -/
inductive FieldValue where
  | str (s : String)
  | list (l : List String)
  deriving DecidableEq, Repr

/-- The value store `formValues`: fieldId to current value, `none`
modelling an absent key (`undefined`). -/
def ValueStore := String → Option FieldValue

/-- The error store `formErrors`: fieldId to current error message,
`none` modelling an absent key. -/
def ErrMap := String → Option String

/-- The empty error object `{}`. -/
def emptyErr : ErrMap := fun _ => none

/-- Assignment `m[k] = msg` on an error object. -/
def updateErr (m : ErrMap) (k : String) (msg : String) : ErrMap :=
  fun k' => if k' = k then some msg else m k'

/-- Deletion `delete m[k]` on an error object. -/
def deleteErr (m : ErrMap) (k : String) : ErrMap :=
  fun k' => if k' = k then none else m k'

/-- Object spread `{ ...old, ...new }`: entries of `new` win. -/
def mergeErr (old new : ErrMap) : ErrMap :=
  fun k => match new k with
    | some msg => some msg
    | none => old k

/-- A form field as in the `FormField` interface; only the members the
validator and handlers read are kept (`type`, `placeholder`,
`dataTestId`, `validation` and `options` are not consulted by the
validation or navigation logic embedded here). -/
structure FormField where
  fieldId : String
  label : String
  required : Bool
  minLength : Option Nat
  maxLength : Option Nat
  deriving DecidableEq, Repr

/-- A form section as in the `FormSection` interface. -/
structure FormSection where
  sectionId : Nat
  title : String
  description : String
  fields : List FormField
  deriving DecidableEq, Repr

/-- JS truthiness of a value read from `formValues`:
`undefined` and `""` are falsy, all other strings and all arrays
(including `[]`) are truthy. -/
def truthy : Option FieldValue → Bool
  | none => false
  | some (.str s) => !(s = "")
  | some (.list _) => true

/-- JS `String.prototype.trim`: strip whitespace from both ends (the
embedding uses `Char.isWhitespace`, which agrees with JS on the ASCII
whitespace the program encounters). -/
def jsTrim (s : String) : String :=
  ⟨((s.data.dropWhile Char.isWhitespace).reverse.dropWhile Char.isWhitespace).reverse⟩

/-- The guard `typeof value === "string" && !value.trim()`. -/
def isWhitespaceStr : Option FieldValue → Bool
  | some (.str s) => jsTrim s = ""
  | _ => false

/-- The guard `Array.isArray(value) && value.length === 0`. -/
def isEmptyList : Option FieldValue → Bool
  | some (.list l) => l.isEmpty
  | _ => false

/-- The required-rule guard of `validateSection`, with the source's
parenthesisation: `(field.required && (!value || (typeof value ===
"string" && !value.trim()))) || (Array.isArray(value) && value.length
=== 0)` — note that the empty-array disjunct is OUTSIDE the
`field.required &&` conjunction. -/
def requiredFires (f : FormField) (v : Option FieldValue) : Bool :=
  (f.required && (!truthy v || isWhitespaceStr v)) || isEmptyList v

/-- The min-length guard of `validateSection`:
`field.minLength !== undefined && value && typeof value === "string" &&
value.length < field.minLength`. -/
def minFires (f : FormField) (v : Option FieldValue) : Bool :=
  match f.minLength with
  | none => false
  | some m =>
    truthy v &&
      (match v with
       | some (.str s) => decide (s.length < m)
       | _ => false)

/-- The max-length guard of `validateSection`:
`field.maxLength !== undefined && value && typeof value === "string" &&
value.length > field.maxLength`. -/
def maxFires (f : FormField) (v : Option FieldValue) : Bool :=
  match f.maxLength with
  | none => false
  | some m =>
    truthy v &&
      (match v with
       | some (.str s) => decide (m < s.length)
       | _ => false)

/-- Message `` `${field.label} is required` ``. -/
def reqMsg (f : FormField) : String := f.label ++ " is required"

/-- Message `` `${field.label} must be at least ${field.minLength} characters` ``
(the guard guarantees `minLength` is present when this is emitted). -/
def minMsg (f : FormField) : String :=
  f.label ++ " must be at least " ++ toString (f.minLength.getD 0) ++ " characters"

/-- Message `` `${field.label} must be at most ${field.maxLength} characters` ``
(the guard guarantees `maxLength` is present when this is emitted). -/
def maxMsg (f : FormField) : String :=
  f.label ++ " must be at most " ++ toString (f.maxLength.getD 0) ++ " characters"

/-- The body of `validateSection`'s `forEach` for one field: the three
conditional assignments to `newErrors[field.fieldId]`, in source
order (required, then min-length, then max-length). -/
def applyField (values : ValueStore) (m : ErrMap) (f : FormField) : ErrMap :=
  let v := values f.fieldId
  let m1 := if requiredFires f v then updateErr m f.fieldId (reqMsg f) else m
  let m2 := if minFires f v then updateErr m1 f.fieldId (minMsg f) else m1
  let m3 := if maxFires f v then updateErr m2 f.fieldId (maxMsg f) else m2
  m3

/-- The `newErrors` object computed by `validateSection` for a section's
field list. -/
def validateSectionErrors (fields : List FormField) (values : ValueStore) : ErrMap :=
  fields.foldl (applyField values) emptyErr

/-- Whether any rule fires for one field (each firing branch also sets
`isValid = false` in the source). -/
def fieldHasError (values : ValueStore) (f : FormField) : Bool :=
  requiredFires f (values f.fieldId) || minFires f (values f.fieldId) ||
    maxFires f (values f.fieldId)

/-- The `isValid` flag returned by `validateSection`: true iff no rule
fired for any field of the section. -/
def sectionIsValid (fields : List FormField) (values : ValueStore) : Bool :=
  fields.all fun f => !fieldHasError values f

/-- The per-field net effect of the three conditional assignments,
starting from an absent entry: the last firing rule's message. -/
def fieldMessage (f : FormField) (v : Option FieldValue) : Option String :=
  let e : Option String := none
  let e := if requiredFires f v then some (reqMsg f) else e
  let e := if minFires f v then some (minMsg f) else e
  let e := if maxFires f v then some (maxMsg f) else e
  e

/-- The `DynamicForm` component state: `currentSection`, `formValues`,
`formErrors`. -/
structure FormState where
  currentSection : Nat
  formValues : ValueStore
  formErrors : ErrMap

/-- Function `validateSection(sectionIndex)` as a state transformer: it reads
`formData.sections[sectionIndex]` (out-of-bounds access would throw in
JS, modelled as `none`), computes `newErrors`, performs
`setFormErrors({ ...formErrors, ...newErrors })` itself, and returns
`isValid`. -/
def validateSectionAt (sections : List FormSection) (st : FormState) (i : Nat) :
    Option (FormState × Bool) :=
  match sections[i]? with
  | none => none
  | some sec =>
    some ({ st with
              formErrors :=
                mergeErr st.formErrors (validateSectionErrors sec.fields st.formValues) },
          sectionIsValid sec.fields st.formValues)

/-- Function `handleInputChange(fieldId, value)`: whole-value replacement in
`formValues`, and removal of the `formErrors` entry guarded by the JS
truthiness test `if (formErrors[fieldId])`. -/
def handleInputChange (st : FormState) (fieldId : String) (v : FieldValue) : FormState :=
  let newValues : ValueStore :=
    fun k => if k = fieldId then some v else st.formValues k
  let newErrors : ErrMap :=
    match st.formErrors fieldId with
    | none => st.formErrors
    | some msg => if msg = "" then st.formErrors else deleteErr st.formErrors fieldId
  { st with formValues := newValues, formErrors := newErrors }

/-- Function `goToNextSection()`: validate the current section (which itself
merges the fresh errors); on success and `currentSection <
sections.length - 1`, increment the index. -/
def goToNextSection (sections : List FormSection) (st : FormState) : Option FormState :=
  match validateSectionAt sections st st.currentSection with
  | none => none
  | some (st2, valid) =>
    if valid then
      if st.currentSection < sections.length - 1 then
        some { st2 with currentSection := st.currentSection + 1 }
      else
        some st2
    else
      some st2

/-- Function `goToPrevSection()`: decrement the index when positive; no
validation. -/
def goToPrevSection (st : FormState) : FormState :=
  if st.currentSection > 0 then
    { st with currentSection := st.currentSection - 1 }
  else
    st

/-- The checkbox `onChange` handler's computation of `updatedValues`
from the stored value: `Array.isArray(value) ? value : []` is copied;
when `e.target.checked` the `push` of the option value is commented out
in the source, so the checked branch returns the list unchanged; when
unchecked, `indexOf` + `splice(index, 1)` removes the first occurrence
of the option value. -/
def checkboxToggle (value : Option FieldValue) (optionValue : String) (checked : Bool) :
    List String :=
  let checkboxValues : List String :=
    match value with
    | some (.list l) => l
    | _ => []
  if checked then
    checkboxValues
  else
    match checkboxValues.findIdx? (fun x => x = optionValue) with
    | some i => checkboxValues.eraseIdx i
    | none => checkboxValues

/-- A user as in the `User` interface. -/
structure User where
  rollNumber : String
  name : String
  deriving DecidableEq, Repr

/-- The `App` component's session state: `user`, `isLoggedIn`, `error`,
`isLoading` (the fetched `formData` is driven by a separate effect and
not part of `registerUser`'s own transition). -/
structure SessionState where
  user : Option User
  isLoggedIn : Bool
  error : Option String
  isLoading : Bool
  deriving DecidableEq, Repr

/-- The exact message the service returns for an already-registered
user. -/
def userExistsMsg : String := "User already exists. Fetch /get-form to get form json"

/-- Fallback `data.message || "Failed to register user"`: JS `||` falls back on
an absent or empty message. -/
def msgOrDefault (msg : Option String) (dflt : String) : String :=
  match msg with
  | none => dflt
  | some s => if s = "" then dflt else s

/-- Function `registerUser(userData)` applied to a resolved HTTP response with
status `ok` and body message `msg`: sets loading and clears the error;
if the body message equals `userExistsMsg`, logs the user in; if the
response is not ok, throws — caught by the handler, which records the
message (or the fallback) as the error and skips the remaining
statements; otherwise logs the user in; finally clears loading. -/
def registerUser (st : SessionState) (userData : User) (ok : Bool) (msg : Option String) :
    SessionState :=
  let st1 := { st with isLoading := true, error := none }
  let st2 :=
    if msg = some userExistsMsg then
      { st1 with user := some userData, isLoggedIn := true }
    else
      st1
  let st3 :=
    if !ok then
      { st2 with error := some (msgOrDefault msg "Failed to register user") }
    else
      { st2 with user := some userData, isLoggedIn := true }
  { st3 with isLoading := false }

/-! ## Concrete fixtures used to instantiate the theorems -/

/-- Fixture: a non-required checkbox-style field. -/
def C1field : FormField :=
  { fieldId := "hobbies", label := "Hobbies", required := false,
    minLength := none, maxLength := none }

/-- Fixture: a store holding an empty list for `C1field`. -/
def C1values : ValueStore :=
  fun k => if k = "hobbies" then some (FieldValue.list []) else none

/-- Fixture: a required field with no length bounds. -/
def C1wfield : FormField :=
  { fieldId := "uname", label := "Username", required := true,
    minLength := none, maxLength := none }

/-- Fixture: a field with a min-length bound. -/
def C3field : FormField :=
  { fieldId := "nick", label := "Nick", required := false,
    minLength := some 2, maxLength := none }

/-- Fixture: a store holding the empty string for `C3field`. -/
def C3values : ValueStore :=
  fun k => if k = "nick" then some (FieldValue.str "") else none

/-- Fixture: a field with a min-length bound of 5. -/
def C3wfield : FormField :=
  { fieldId := "bio", label := "Bio", required := false,
    minLength := some 5, maxLength := none }

/-- Fixture: a store holding a 3-character string for `C3wfield`. -/
def C3wvalues : ValueStore :=
  fun k => if k = "bio" then some (FieldValue.str "abc") else none

/-- Fixture: a required text field. -/
def C4field : FormField :=
  { fieldId := "name", label := "Name", required := true,
    minLength := none, maxLength := none }

/-- Fixture: a one-field section. -/
def C4section : FormSection :=
  { sectionId := 1, title := "Personal", description := "", fields := [C4field] }

/-- Fixture: the initial component state (index 0, empty stores). -/
def C4state : FormState :=
  { currentSection := 0, formValues := fun _ => none, formErrors := fun _ => none }

/-- Fixture: a required field with both length bounds. -/
def C5field : FormField :=
  { fieldId := "name", label := "Name", required := true,
    minLength := some 2, maxLength := some 10 }

/-- Fixture: a store holding a whitespace-only string for `C5field`. -/
def C5values : ValueStore :=
  fun k => if k = "name" then some (FieldValue.str " ") else none

/-- Fixture: a fieldless first section. -/
def C6sectionA : FormSection :=
  { sectionId := 1, title := "A", description := "", fields := [] }

/-- Fixture: a fieldless second section. -/
def C6sectionB : FormSection :=
  { sectionId := 2, title := "B", description := "", fields := [] }

/-- Fixture: the initial component state for the two-section schema. -/
def C6state : FormState :=
  { currentSection := 0, formValues := fun _ => none, formErrors := fun _ => none }

/-- Fixture: a state with an error entry recorded for field `email`. -/
def C7state : FormState :=
  { currentSection := 0, formValues := fun _ => none,
    formErrors := fun k => if k = "email" then some "Email is required" else none }

/-- Fixture: a state sitting at section index 0. -/
def C8state0 : FormState :=
  { currentSection := 0, formValues := fun _ => none, formErrors := fun _ => none }

/-- Fixture: a state sitting at section index 2. -/
def C8state2 : FormState :=
  { currentSection := 2, formValues := fun _ => none, formErrors := fun _ => none }

/-- Fixture: the pre-login session state. -/
def C9state : SessionState :=
  { user := none, isLoggedIn := false, error := none, isLoading := false }

/-- Fixture: a concrete user. -/
def C9user : User := { rollNumber := "RA221100", name := "Aakash" }

/-! ## Basic lemmas about the validator -/

theorem updateErr_self (m : ErrMap) (k msg : String) : updateErr m k msg k = some msg := by
  simp [updateErr]

theorem updateErr_ne (m : ErrMap) (k msg k' : String) (h : k' ≠ k) :
    updateErr m k msg k' = m k' := by
  simp [updateErr, h]

/-- A field's loop body leaves every other field's entry alone. -/
theorem applyField_ne (values : ValueStore) (m : ErrMap) (f : FormField) (k : String)
    (h : k ≠ f.fieldId) : applyField values m f k = m k := by
  unfold applyField
  by_cases h1 : requiredFires f (values f.fieldId) <;>
    by_cases h2 : minFires f (values f.fieldId) <;>
      by_cases h3 : maxFires f (values f.fieldId) <;>
        simp [h1, h2, h3, updateErr, h]

/-- A field's loop body sets the field's own entry to the last firing
rule's message, keeping the incoming entry when no rule fires. -/
theorem applyField_self (values : ValueStore) (m : ErrMap) (f : FormField) :
    applyField values m f f.fieldId =
      Option.or (fieldMessage f (values f.fieldId)) (m f.fieldId) := by
  unfold applyField fieldMessage
  by_cases h1 : requiredFires f (values f.fieldId) <;>
    by_cases h2 : minFires f (values f.fieldId) <;>
      by_cases h3 : maxFires f (values f.fieldId) <;>
        simp [h1, h2, h3, updateErr]

/-- Fields whose ids differ from `k` never touch entry `k`. -/
theorem foldl_applyField_untouched (values : ValueStore) (fields : List FormField)
    (m : ErrMap) (k : String) (h : ∀ g ∈ fields, g.fieldId ≠ k) :
    fields.foldl (applyField values) m k = m k := by
  induction fields generalizing m with
  | nil => rfl
  | cons g t ih =>
    have hg : g.fieldId ≠ k := h g (List.mem_cons_self g t)
    have ht : ∀ g' ∈ t, g'.fieldId ≠ k := fun g' hg' => h g' (List.mem_cons_of_mem g hg')
    calc (g :: t).foldl (applyField values) m k
        = t.foldl (applyField values) (applyField values m g) k := rfl
      _ = applyField values m g k := ih (applyField values m g) ht
      _ = m k := applyField_ne values m g k (Ne.symm hg)

/-- With pairwise-distinct field ids, the entry the section loop leaves
for a member field is that field's own last firing message (or the
incoming entry when nothing fires). -/
theorem foldl_applyField_entry (values : ValueStore) (fields : List FormField)
    (m : ErrMap) (f : FormField) (hmem : f ∈ fields)
    (hnd : (fields.map FormField.fieldId).Nodup) :
    fields.foldl (applyField values) m f.fieldId =
      Option.or (fieldMessage f (values f.fieldId)) (m f.fieldId) := by
  induction fields generalizing m with
  | nil => exact absurd hmem (List.not_mem_nil f)
  | cons g t ih =>
    rw [List.map_cons, List.nodup_cons] at hnd
    rcases List.mem_cons.mp hmem with hfg | hft
    · subst hfg
      have ht : ∀ g' ∈ t, g'.fieldId ≠ f.fieldId := by
        intro g' hg'
        intro he
        exact hnd.1 (he ▸ List.mem_map_of_mem FormField.fieldId hg')
      calc (f :: t).foldl (applyField values) m f.fieldId
          = t.foldl (applyField values) (applyField values m f) f.fieldId := rfl
        _ = applyField values m f f.fieldId :=
            foldl_applyField_untouched values t (applyField values m f) f.fieldId ht
        _ = Option.or (fieldMessage f (values f.fieldId)) (m f.fieldId) :=
            applyField_self values m f
    · have hne : g.fieldId ≠ f.fieldId := by
        intro he
        exact hnd.1 (he ▸ List.mem_map_of_mem FormField.fieldId hft)
      calc (g :: t).foldl (applyField values) m f.fieldId
          = t.foldl (applyField values) (applyField values m g) f.fieldId := rfl
        _ = Option.or (fieldMessage f (values f.fieldId)) (applyField values m g f.fieldId) :=
            ih (applyField values m g) hft hnd.2
        _ = Option.or (fieldMessage f (values f.fieldId)) (m f.fieldId) := by
            rw [applyField_ne values m g f.fieldId (Ne.symm hne)]

/-- The entry `validateSection` computes for a member field of a
section with pairwise-distinct field ids. -/
theorem validateSectionErrors_entry (values : ValueStore) (fields : List FormField)
    (f : FormField) (hmem : f ∈ fields) (hnd : (fields.map FormField.fieldId).Nodup) :
    validateSectionErrors fields values f.fieldId = fieldMessage f (values f.fieldId) := by
  unfold validateSectionErrors
  rw [foldl_applyField_entry values fields emptyErr f hmem hnd]
  cases fieldMessage f (values f.fieldId) <;> rfl

/-- An id that belongs to no field of the section gets no entry. -/
theorem validateSectionErrors_not_mem (values : ValueStore) (fields : List FormField)
    (k : String) (h : ∀ g ∈ fields, g.fieldId ≠ k) :
    validateSectionErrors fields values k = none :=
  foldl_applyField_untouched values fields emptyErr k h

/-- The overwrite chain read back to front: the retained message is the
LAST applicable rule's. -/
theorem fieldMessage_eq_last_rule (f : FormField) (v : Option FieldValue) :
    fieldMessage f v =
      (if maxFires f v then some (maxMsg f)
       else if minFires f v then some (minMsg f)
       else if requiredFires f v then some (reqMsg f)
       else none) := by
  unfold fieldMessage
  by_cases h1 : requiredFires f v <;>
    by_cases h2 : minFires f v <;>
      by_cases h3 : maxFires f v <;>
        simp [h1, h2, h3]

/-- Unfolding of the state transformer at an in-bounds index. -/
theorem validateSectionAt_eq (sections : List FormSection) (st : FormState) (i : Nat)
    (sec : FormSection) (h : sections[i]? = some sec) :
    validateSectionAt sections st i =
      some ({ st with
                formErrors :=
                  mergeErr st.formErrors (validateSectionErrors sec.fields st.formValues) },
            sectionIsValid sec.fields st.formValues) := by
  unfold validateSectionAt
  rw [h]

/-- Required-rule messages are never the empty string. -/
theorem reqMsg_ne_empty (f : FormField) : reqMsg f ≠ "" := by
  intro h
  have hl := congrArg String.length h
  rw [reqMsg, String.length_append] at hl
  have h12 : (" is required" : String).length = 12 := rfl
  have h0 : ("" : String).length = 0 := rfl
  rw [h12, h0] at hl
  omega

/-- Min-length messages are never the empty string. -/
theorem minMsg_ne_empty (f : FormField) : minMsg f ≠ "" := by
  intro h
  have hl := congrArg String.length h
  rw [minMsg, String.length_append, String.length_append, String.length_append] at hl
  have h18 : (" must be at least " : String).length = 18 := rfl
  have h11 : (" characters" : String).length = 11 := rfl
  have h0 : ("" : String).length = 0 := rfl
  rw [h18, h11, h0] at hl
  omega

/-- Max-length messages are never the empty string. -/
theorem maxMsg_ne_empty (f : FormField) : maxMsg f ≠ "" := by
  intro h
  have hl := congrArg String.length h
  rw [maxMsg, String.length_append, String.length_append, String.length_append] at hl
  have h17 : (" must be at most " : String).length = 17 := rfl
  have h11 : (" characters" : String).length = 11 := rfl
  have h0 : ("" : String).length = 0 := rfl
  rw [h17, h11, h0] at hl
  omega

/-- A required-rule message never coincides with a min-length message
(their suffixes after the shared label have different lengths). -/
theorem reqMsg_ne_minMsg (f : FormField) : reqMsg f ≠ minMsg f := by
  intro h
  have hl := congrArg String.length h
  rw [reqMsg, minMsg, String.length_append, String.length_append, String.length_append,
    String.length_append] at hl
  have h12 : (" is required" : String).length = 12 := rfl
  have h18 : (" must be at least " : String).length = 18 := rfl
  have h11 : (" characters" : String).length = 11 := rfl
  rw [h12, h18, h11] at hl
  omega

/-- One loop step preserves the invariant that no entry holds the empty
string: all three rule messages are non-empty. -/
theorem applyField_ne_some_empty (values : ValueStore) (m : ErrMap) (f : FormField)
    (hm : ∀ k, m k ≠ some "") (k : String) : applyField values m f k ≠ some "" := by
  by_cases hk : k = f.fieldId
  · subst hk
    rw [applyField_self, fieldMessage_eq_last_rule]
    by_cases h3 : maxFires f (values f.fieldId)
    · simp [h3, Option.or]
      exact fun he => maxMsg_ne_empty f he
    · by_cases h2 : minFires f (values f.fieldId)
      · simp [h3, h2, Option.or]
        exact fun he => minMsg_ne_empty f he
      · by_cases h1 : requiredFires f (values f.fieldId)
        · simp [h3, h2, h1, Option.or]
          exact fun he => reqMsg_ne_empty f he
        · simp [h3, h2, h1, Option.or]
          exact hm f.fieldId
  · rw [applyField_ne values m f k hk]
    exact hm k

/-- The section loop preserves the non-empty-message invariant. -/
theorem foldl_applyField_ne_some_empty (values : ValueStore) (fields : List FormField)
    (m : ErrMap) (hm : ∀ k, m k ≠ some "") (k : String) :
    fields.foldl (applyField values) m k ≠ some "" := by
  induction fields generalizing m with
  | nil => exact hm k
  | cons f t ih => exact ih (applyField values m f) (applyField_ne_some_empty values m f hm)

/-- No entry of the freshly computed error object is the empty string;
together with the fact that merging and deletion introduce no new
messages, this is why a reachable `formErrors` never maps a field to
`""` — the hypothesis under which the edit-clears-error theorem below
is stated. -/
theorem validateSectionErrors_ne_some_empty (fields : List FormField) (values : ValueStore)
    (k : String) : validateSectionErrors fields values k ≠ some "" :=
  foldl_applyField_ne_some_empty values fields emptyErr (fun _ => by simp [emptyErr]) k

/-! ## Claim C1: the required rule -/

/-- C1 counterexample: a field whose `required` flag is false but whose
stored value is the empty list DOES receive the required-error
`"Hobbies is required"`, refuting the claim that a non-required field
never receives a required-error (the empty-array disjunct sits outside
the `field.required &&` conjunction in the source). -/
theorem C1_counterexample :
    validateSectionErrors [C1field] C1values "hobbies" = some "Hobbies is required" ∧
      C1field.required = false :=
  ⟨rfl, rfl⟩

/-- C1 (amended): the required rule of `validateSection` fires for a
field iff either the `required` flag is true and the value is absent or
a string that trims to empty (the empty string included), or — whatever
the `required` flag — the value is a list with zero elements; moreover,
for a single-field section with no length bounds, the produced entry is
`"<label> is required"` exactly when the rule fires. -/
theorem C1_required_rule_characterization (f : FormField) (values : ValueStore) :
    (requiredFires f (values f.fieldId) = true ↔
      ((f.required = true ∧
          (values f.fieldId = none ∨
            ∃ s, values f.fieldId = some (FieldValue.str s) ∧ jsTrim s = "")) ∨
        values f.fieldId = some (FieldValue.list []))) ∧
    (f.minLength = none → f.maxLength = none →
      (validateSectionErrors [f] values f.fieldId = some (reqMsg f) ↔
        requiredFires f (values f.fieldId) = true)) := by
  constructor
  · cases hv : values f.fieldId with
    | none => simp [requiredFires, truthy, isWhitespaceStr, isEmptyList]
    | some fv =>
      cases fv with
      | str s =>
        by_cases hs : s = ""
        · subst hs
          simp [requiredFires, truthy, isWhitespaceStr, isEmptyList, jsTrim]
        · simp [requiredFires, truthy, isWhitespaceStr, isEmptyList, hs]
      | list l =>
        cases l with
        | nil => simp [requiredFires, truthy, isWhitespaceStr, isEmptyList]
        | cons a t => simp [requiredFires, truthy, isWhitespaceStr, isEmptyList]
  · intro hmin hmax
    rw [validateSectionErrors_entry values [f] f (List.mem_singleton.mpr rfl) (by simp),
      fieldMessage_eq_last_rule]
    simp only [minFires, maxFires, hmin, hmax]
    by_cases hr : requiredFires f (values f.fieldId) <;> simp [hr]

/-- C1 witness: a required field with an absent value yields exactly
the required-error entry. -/
theorem C1_required_rule_characterization_witness :
    validateSectionErrors [C1wfield] (fun _ => none) "uname" = some "Username is required" :=
  ((C1_required_rule_characterization C1wfield (fun _ => none)).2 rfl rfl).mpr (by decide)

/-! ## Claim C2: checkbox toggling -/

/-- C2 (code bug): per the source, toggling an option to checked is a
no-op — the `push` of the option value is commented out — so the list
never gains the value; toggling to unchecked does remove the first
occurrence. The first two conjuncts evaluate the code at the failing
inputs (the claim demands `["a"]` and `["b", "a"]` respectively); the
third shows the working removal path. -/
theorem C2_checkbox_toggle_on_noop :
    checkboxToggle (some (FieldValue.list [])) "a" true = [] ∧
    checkboxToggle (some (FieldValue.list ["b"])) "a" true = ["b"] ∧
    checkboxToggle (some (FieldValue.list ["a", "b"])) "a" false = ["b"] :=
  ⟨rfl, rfl, rfl⟩

/-! ## Claim C3: the min-length rule -/

/-- C3 counterexample: a field with `minLength = 2` whose stored value
is the empty string (length 0 < 2) receives NO error entry, refuting
the claim that the rule applies to every string value including the
empty string — the source's `value &&` truthiness guard exempts `""`. -/
theorem C3_counterexample :
    validateSectionErrors [C3field] C3values "nick" = none ∧
      C3values "nick" = some (FieldValue.str "") ∧ C3field.minLength = some 2 :=
  ⟨rfl, rfl, rfl⟩

/-- C3 (amended): the min-length rule of `validateSection` fires for a
field iff `minLength` is defined and the value is a NON-EMPTY (truthy)
string of length strictly less than `minLength`; the empty string never
triggers it. Moreover, for a single-field section with no max bound,
the produced entry is the min-length message exactly when the rule
fires. -/
theorem C3_min_length_rule_characterization (f : FormField) (values : ValueStore) :
    (minFires f (values f.fieldId) = true ↔
      (∃ m s, f.minLength = some m ∧ values f.fieldId = some (FieldValue.str s) ∧
        s ≠ "" ∧ s.length < m)) ∧
    (f.maxLength = none →
      (validateSectionErrors [f] values f.fieldId = some (minMsg f) ↔
        minFires f (values f.fieldId) = true)) := by
  constructor
  · cases hm : f.minLength with
    | none => simp [minFires, hm]
    | some m =>
      cases hv : values f.fieldId with
      | none => simp [minFires, truthy, hm]
      | some fv =>
        cases fv with
        | str s =>
          by_cases hs : s = ""
          · subst hs
            simp [minFires, truthy, hm]
          · simp [minFires, truthy, hm, hs]
        | list l => simp [minFires, truthy, hm]
  · intro hmax
    rw [validateSectionErrors_entry values [f] f (List.mem_singleton.mpr rfl) (by simp),
      fieldMessage_eq_last_rule]
    simp only [maxFires, hmax]
    by_cases hmf : minFires f (values f.fieldId)
    · simp [hmf]
    · by_cases hr : requiredFires f (values f.fieldId)
      · simp [hmf, hr]
        exact fun he => (reqMsg_ne_minMsg f he).elim
      · simp [hmf, hr]

/-- C3 witness: a 3-character string against `minLength = 5` yields
exactly the min-length message. -/
theorem C3_min_length_rule_characterization_witness :
    validateSectionErrors [C3wfield] C3wvalues "bio" = some "Bio must be at least 5 characters" :=
  ((C3_min_length_rule_characterization C3wfield C3wvalues).2 rfl).mpr (by decide)

/-! ## Claim C4: effect of validateSection on the component state -/

/-- C4 counterexample: `validateSection` does NOT leave ValidationErrors
unchanged — on a state with empty `formErrors`, validating a section
with a required, absent field installs the entry
`"Name is required"` into the component's error state itself (the
source calls `setFormErrors` inside `validateSection`). -/
theorem C4_counterexample :
    (validateSectionAt [C4section] C4state 0).map (fun p => (p.1.formErrors "name", p.2)) =
      some (some "Name is required", false) ∧
    C4state.formErrors "name" = none :=
  ⟨rfl, rfl⟩

/-- C4 (amended): `validateSection` leaves the navigation index and the
ValueStore unchanged and computes the section's error mapping purely
from the section's fields and the value store, but it performs the
merge into ValidationErrors itself (spread-overlaying the previous
entries); the merge is not left to the caller. -/
theorem C4_validateSection_state_effect (sections : List FormSection) (st : FormState)
    (i : Nat) (sec : FormSection) (h : sections[i]? = some sec) :
    ∃ st', validateSectionAt sections st i =
        some (st', sectionIsValid sec.fields st.formValues) ∧
      st'.currentSection = st.currentSection ∧
      st'.formValues = st.formValues ∧
      st'.formErrors =
        mergeErr st.formErrors (validateSectionErrors sec.fields st.formValues) :=
  ⟨_, validateSectionAt_eq sections st i sec h, rfl, rfl, rfl⟩

/-- C4 witness: the amended statement instantiated on the concrete
one-section schema, plus an evaluation of the merged entry. -/
theorem C4_validateSection_state_effect_witness :
    (∃ st', validateSectionAt [C4section] C4state 0 =
        some (st', sectionIsValid C4section.fields C4state.formValues) ∧
      st'.currentSection = C4state.currentSection ∧
      st'.formValues = C4state.formValues ∧
      st'.formErrors =
        mergeErr C4state.formErrors
          (validateSectionErrors C4section.fields C4state.formValues)) ∧
    mergeErr C4state.formErrors
        (validateSectionErrors C4section.fields C4state.formValues) "name" =
      some "Name is required" :=
  ⟨C4_validateSection_state_effect [C4section] C4state 0 C4section rfl, rfl⟩

/-! ## Claim C5: one message per field, last applicable rule wins -/

/-- C5: in a section whose field ids are pairwise distinct, the entry
`validateSection` leaves for a member field is a single message — the
LAST applicable rule's (max-length over min-length over required); in
particular the rules overwrite rather than aggregate. -/
theorem C5_last_rule_wins (fields : List FormField) (values : ValueStore) (f : FormField)
    (hmem : f ∈ fields) (hnd : (fields.map FormField.fieldId).Nodup) :
    validateSectionErrors fields values f.fieldId =
      (if maxFires f (values f.fieldId) then some (maxMsg f)
       else if minFires f (values f.fieldId) then some (minMsg f)
       else if requiredFires f (values f.fieldId) then some (reqMsg f)
       else none) := by
  rw [validateSectionErrors_entry values fields f hmem hnd]
  exact fieldMessage_eq_last_rule f (values f.fieldId)

/-- C5 witness: a whitespace-only value on a required field with
`minLength = 2` yields the min-length message, not the required
message. -/
theorem C5_last_rule_wins_witness :
    validateSectionErrors [C5field] C5values "name" =
      some "Name must be at least 2 characters" :=
  (C5_last_rule_wins [C5field] C5values C5field (List.mem_singleton.mpr rfl)
    (by decide)).trans (by decide)

/-! ## Claim C6: advance -/

/-- C6: `goToNextSection` first validates the current section (merging
the freshly computed errors into ValidationErrors in every case); the
index increments by exactly one iff validation returned no errors and
the index is strictly below `sections.length - 1`, and otherwise — in
particular whenever any field of the section is invalid — the index is
unchanged. -/
theorem C6_advance_spec (sections : List FormSection) (st : FormState) (sec : FormSection)
    (h : sections[st.currentSection]? = some sec) :
    ∃ st', goToNextSection sections st = some st' ∧
      st'.formValues = st.formValues ∧
      st'.formErrors =
        mergeErr st.formErrors (validateSectionErrors sec.fields st.formValues) ∧
      st'.currentSection =
        (if sectionIsValid sec.fields st.formValues &&
            decide (st.currentSection < sections.length - 1)
         then st.currentSection + 1 else st.currentSection) := by
  unfold goToNextSection
  rw [validateSectionAt_eq sections st st.currentSection sec h]
  set merged := mergeErr st.formErrors (validateSectionErrors sec.fields st.formValues) with hmrg
  by_cases hv : sectionIsValid sec.fields st.formValues
  · by_cases hlt : st.currentSection < sections.length - 1
    · refine ⟨{ currentSection := st.currentSection + 1, formValues := st.formValues, formErrors := merged }, ?_, rfl, rfl, ?_⟩
      · simp [hv, hlt]
      · simp [hv, hlt]
    · refine ⟨{ currentSection := st.currentSection, formValues := st.formValues, formErrors := merged }, ?_, rfl, rfl, ?_⟩
      · simp [hv, hlt]
      · simp [hv, hlt]
  · refine ⟨{ currentSection := st.currentSection, formValues := st.formValues, formErrors := merged }, ?_, rfl, rfl, ?_⟩
    · simp [hv]
    · simp [hv]

/-- C6 witness: on a two-section schema with a trivially valid first
section, advancing from index 0 moves to index 1. -/
theorem C6_advance_spec_witness :
    (∃ st', goToNextSection [C6sectionA, C6sectionB] C6state = some st' ∧
      st'.formValues = C6state.formValues ∧
      st'.formErrors =
        mergeErr C6state.formErrors
          (validateSectionErrors C6sectionA.fields C6state.formValues) ∧
      st'.currentSection =
        (if sectionIsValid C6sectionA.fields C6state.formValues &&
            decide (C6state.currentSection < [C6sectionA, C6sectionB].length - 1)
         then C6state.currentSection + 1 else C6state.currentSection)) ∧
    (goToNextSection [C6sectionA, C6sectionB] C6state).map FormState.currentSection = some 1 :=
  ⟨C6_advance_spec [C6sectionA, C6sectionB] C6state C6sectionA rfl, rfl⟩

/-! ## Claim C7: edits clear errors -/

/-- C7: after `handleInputChange(f, v)` the error entry for `f` is gone
— even when `v` is itself invalid, since no validation runs — the
stored value for `f` is wholly replaced by `v`, and the error entries
and values of every other field, as well as the section index, are
unchanged. The hypothesis excludes an empty-string message, which the
JS truthiness test `if (formErrors[fieldId])` would skip; by
`validateSectionErrors_ne_some_empty` no reachable error store contains
one. -/
theorem C7_edit_clears_error (st : FormState) (fieldId : String) (v : FieldValue)
    (h : st.formErrors fieldId ≠ some "") :
    (handleInputChange st fieldId v).formErrors fieldId = none ∧
    (handleInputChange st fieldId v).formValues fieldId = some v ∧
    (∀ k, k ≠ fieldId →
      (handleInputChange st fieldId v).formErrors k = st.formErrors k ∧
      (handleInputChange st fieldId v).formValues k = st.formValues k) ∧
    (handleInputChange st fieldId v).currentSection = st.currentSection := by
  unfold handleInputChange
  cases hm : st.formErrors fieldId with
  | none =>
    exact ⟨hm, by simp, fun k hk => ⟨rfl, by simp [hk]⟩, rfl⟩
  | some msg =>
    have hmsg : ¬(msg = "") := fun he => h (he ▸ hm)
    exact ⟨by simp [hmsg, deleteErr], by simp,
      fun k hk => ⟨by simp [hmsg, deleteErr, hk], by simp [hk]⟩, rfl⟩

/-- C7 witness: overwriting field `email` (which holds the error
`"Email is required"`) with the still-invalid value `""` removes its
error entry, stores the new value, and leaves everything else alone. -/
theorem C7_edit_clears_error_witness :
    (handleInputChange C7state "email" (FieldValue.str "")).formErrors "email" = none ∧
    (handleInputChange C7state "email" (FieldValue.str "")).formValues "email" =
      some (FieldValue.str "") ∧
    (∀ k, k ≠ "email" →
      (handleInputChange C7state "email" (FieldValue.str "")).formErrors k =
        C7state.formErrors k ∧
      (handleInputChange C7state "email" (FieldValue.str "")).formValues k =
        C7state.formValues k) ∧
    (handleInputChange C7state "email" (FieldValue.str "")).currentSection =
      C7state.currentSection :=
  C7_edit_clears_error C7state "email" (FieldValue.str "") (by decide)

/-! ## Claim C8: retreat -/

/-- C8: `goToPrevSection` performs no validation and touches nothing
but the index: from any index it yields `index - 1` (so from `i > 0` it
yields `i - 1`), at index 0 it is a no-op, and `formValues` and
`formErrors` are always unchanged. -/
theorem C8_retreat_spec (st : FormState) :
    (goToPrevSection st).currentSection = st.currentSection - 1 ∧
    (st.currentSection = 0 → goToPrevSection st = st) ∧
    (goToPrevSection st).formValues = st.formValues ∧
    (goToPrevSection st).formErrors = st.formErrors := by
  unfold goToPrevSection
  by_cases hp : st.currentSection > 0
  · rw [if_pos hp]
    exact ⟨rfl, fun h0 => absurd h0 (by omega), rfl, rfl⟩
  · rw [if_neg hp]
    exact ⟨by omega, fun _ => rfl, rfl, rfl⟩

/-- C8 witness: retreating at index 0 is a no-op and retreating at
index 2 yields index 1. -/
theorem C8_retreat_spec_witness :
    goToPrevSection C8state0 = C8state0 ∧
    (goToPrevSection C8state2).currentSection = 1 :=
  ⟨(C8_retreat_spec C8state0).2.1 rfl, (C8_retreat_spec C8state2).1⟩

/-! ## Claim C9: registerUser success conditions -/

/-- C9: starting from an unauthenticated session, `registerUser`
yields the authenticated state (user set and logged in) exactly when
the response is ok or its body message is the user-already-exists
message; for every other non-ok response the session stays
unauthenticated and the response message (or the fallback) is surfaced
as the error. -/
theorem C9_registerUser_auth_iff (st : SessionState) (u : User) (ok : Bool)
    (msg : Option String) (hlog : st.isLoggedIn = false) (huser : st.user = none) :
    (((registerUser st u ok msg).isLoggedIn = true ∧
        (registerUser st u ok msg).user = some u) ↔
      (ok = true ∨ msg = some userExistsMsg)) ∧
    (ok = false → msg ≠ some userExistsMsg →
      (registerUser st u ok msg).isLoggedIn = false ∧
      (registerUser st u ok msg).user = none ∧
      (registerUser st u ok msg).error =
        some (msgOrDefault msg "Failed to register user")) := by
  unfold registerUser
  by_cases hmsg : msg = some userExistsMsg <;> cases ok <;>
    simp [hmsg, hlog, huser]

/-- C9 witness: a non-ok response with message `"Invalid roll number"`
leaves the session unauthenticated and surfaces that message. -/
theorem C9_registerUser_auth_iff_witness :
    (registerUser C9state C9user false (some "Invalid roll number")).isLoggedIn = false ∧
    (registerUser C9state C9user false (some "Invalid roll number")).user = none ∧
    (registerUser C9state C9user false (some "Invalid roll number")).error =
      some "Invalid roll number" := by
  have h := (C9_registerUser_auth_iff C9state C9user false
    (some "Invalid roll number") rfl rfl).2 rfl (by decide)
  exact ⟨h.1, h.2.1, h.2.2.trans rfl⟩

/-! ## Claim C10: already-exists on a non-ok response -/

/-- C10: a non-ok response whose body message is exactly the
user-already-exists message both authenticates the session (user set,
logged in) and records that same message as the user-visible error, in
the one call. -/
theorem C10_already_exists_nonok (st : SessionState) (u : User) :
    (registerUser st u false (some userExistsMsg)).isLoggedIn = true ∧
    (registerUser st u false (some userExistsMsg)).user = some u ∧
    (registerUser st u false (some userExistsMsg)).error = some userExistsMsg :=
  ⟨rfl, rfl, rfl⟩

end DynForm
